import Mathlib

/-!
Shallow embedding of the metrics sampling/delivery pipeline in
src/userspace/falco/stats_writer.cpp.

Modelling conventions:
- C++ `uint64_t` arithmetic is `Nat` with explicit wrap modulo 2 ^ 64 where
  the source can overflow (counter deltas, time deltas).
- C++ `double` arithmetic on counter rates and percentages is modelled by
  exact rational arithmetic (`ℚ`); `std::round` is rounding half away from
  zero; a C cast of a nonnegative double to an unsigned integer truncates,
  i.e. takes the floor.
- `nlohmann::json output_fields` is modelled as a partial map
  `String → Option Value`; `output_fields[k] = v` overwrites the entry at
  key `k` (later assignments win), exactly as for a JSON object.
- `strncmp(name, LIT, strlen(LIT) + 1) == 0` is exact string equality;
  `strncmp(name, LIT, strlen(LIT)) == 0` tests that `name` begins with
  `LIT` (as the source comments themselves note at the call sites).
- the ticker value (`ticker_t`, an unsigned integer read only for
  equality/inequality) is modelled as `Nat`.
-/

namespace StatsWriter

/-- A JSON field value as stored into `output_fields`: a 64-bit unsigned
integer, a 32-bit unsigned integer, a double, or a string. -/
inductive Value where
  | u64 : Nat → Value
  | u32 : Nat → Value
  | d : ℚ → Value
  | s : String → Value
deriving DecidableEq

/-- The `output_fields` JSON object: a partial map from field name to value. -/
def Fields : Type := String → Option Value

/-- A freshly constructed (empty) `output_fields` object. -/
def emptyFields : Fields := fun _ => none

/-- JSON object assignment `output_fields[k] = v` (overwrites). -/
def setField (fs : Fields) (k : String) (v : Value) : Fields :=
  fun q => if q = k then some v else fs q

/-- The modulus of `uint64_t` arithmetic. -/
def u64Mod : Nat := 2 ^ 64

/-- C++ `uint64_t` subtraction `a - b`: wraps modulo 2 ^ 64, no clamping. -/
def u64sub (a b : Nat) : Nat := (a + u64Mod - b) % u64Mod

/-- `ONE_SECOND_IN_NS`. -/
def oneSecondInNs : Nat := 1000000000

/-- C++ `std::round`: round half away from zero, result as an integer. -/
def cppRound (x : ℚ) : ℤ := if 0 ≤ x then ⌊x + 1 / 2⌋ else ⌈x - 1 / 2⌉

/-- `std::round(x * 10.0) / 10.0`: round to one decimal place. -/
def round1 (x : ℚ) : ℚ := (cppRound (x * 10) : ℚ) / 10

/-- The type tag of one stats entry (`STATS_VALUE_TYPE_U64` / `_U32` / `_D`;
the source's `switch` handles exactly these and skips any other tag, which
the stats lists the pipeline consumes do not use). -/
inductive StatType where
  | u64T : StatType
  | u32T : StatType
  | dT : StatType
deriving DecidableEq

/-- One entry of a stats list (`scap_stats_v2`): a name, a type tag, and the
union members the source reads (`value.u64`, `value.u32`, `value.d`). -/
structure Stat where
  name : String
  type : StatType
  vu64 : Nat
  vu32 : Nat
  vd : ℚ
deriving DecidableEq

/-- The configuration options the collector reads
(`m_metrics_include_empty_values`, `m_metrics_convert_memory_to_mb`). -/
structure Config where
  includeEmptyValues : Bool
  convertMemoryToMb : Bool
deriving DecidableEq

/-- The `strncmp(name, "memory_", 7) == 0` test: whether `s` begins with
`pre` (stated over the character lists so that it evaluates by kernel
reduction). -/
def strStarts (s pre : String) : Bool := List.isPrefixOf pre.data s.data

/-- One iteration of the engine/runtime counters loop of
`get_metrics_output_fields_additional` (the body for one `stat` index,
lines 383-440), for an entry whose name is nonempty. -/
def processEngineStat (cfg : Config) (fs : Fields) (st : Stat) : Fields :=
  let metricName := "falco." ++ st.name
  let fs1 := if st.name = "n_fds" ∨ st.name = "n_threads" then
      setField fs metricName (Value.u64 st.vu64)
    else fs
  match st.type with
  | StatType.u64T =>
    if st.vu64 = 0 ∧ cfg.includeEmptyValues = false then fs1
    else if cfg.convertMemoryToMb = true then
      if st.name = "container_memory_used" then
        setField fs1 metricName (Value.u64 (st.vu64 / (1024 * 1024)))
      else if strStarts st.name "memory_" = true then
        setField fs1 metricName (Value.u64 (st.vu64 / 1024))
      else setField fs1 metricName (Value.u64 st.vu64)
    else setField fs1 metricName (Value.u64 st.vu64)
  | StatType.u32T =>
    if st.vu32 = 0 ∧ cfg.includeEmptyValues = false then fs1
    else if cfg.convertMemoryToMb = true ∧ strStarts st.name "memory_" = true then
      setField fs1 metricName (Value.u32 (st.vu32 / 1024))
    else setField fs1 metricName (Value.u32 st.vu32)
  | StatType.dT =>
    if st.vd = 0 ∧ cfg.includeEmptyValues = false then fs1
    else setField fs1 metricName (Value.d st.vd)

/-- The engine/runtime counters loop (lines 377-441): iterates the entries,
breaking out at the first entry whose name is empty. -/
def processEngineStats (cfg : Config) : Fields → List Stat → Fields
  | fs, [] => fs
  | fs, st :: rest =>
    if st.name = "" then fs
    else processEngineStats cfg (processEngineStat cfg fs st) rest

/-- The whole guarded engine/runtime section (lines 368-442): the loop runs
only when the snapshot pointer is non-null, `rc == 0` and `nstats > 0`;
`stats` holds the `nstats` entries of the returned array and the loop starts
at index `baseStat`. -/
def engineSection (cfg : Config) (snapshotPresent : Bool) (rc : Int)
    (baseStat : Nat) (stats : List Stat) (fs : Fields) : Fields :=
  if snapshotPresent = true ∧ rc = 0 ∧ 0 < stats.length then
    processEngineStats cfg fs (stats.drop baseStat)
  else fs

/-- The loop-carried state of the kernel-side counters section (lines
463-467): the cached `n_evts` / `n_drops` totals and deltas, the collector's
previous-value members `m_last_n_evts` / `m_last_n_drops`, and the fields
built so far. -/
structure ScapAcc where
  n_evts : Nat
  n_drops : Nat
  n_evts_delta : Nat
  n_drops_delta : Nat
  last_n_evts : Nat
  last_n_drops : Nat
  fields : Fields

/-- One iteration of the kernel-side counters loop (lines 468-526) for an
entry whose name is nonempty: the reserved `n_evts` / `n_drops` entries are
always reported together with their previous value and a derived rate (zero
when the delta is zero or the time delta is not positive); then the common
zero-suppression write runs for every `u64` entry; entries of any other type
are skipped. -/
def processScapStat (cfg : Config) (elapsedSec : ℚ) (acc : ScapAcc) (st : Stat) :
    ScapAcc :=
  let metricName := "scap." ++ st.name
  match st.type with
  | StatType.u64T =>
    let acc1 :=
      if st.name = "n_evts" then
        let nEvts := st.vu64
        let delta := u64sub nEvts acc.last_n_evts
        let f1 := setField acc.fields metricName (Value.u64 nEvts)
        let f2 := setField f1 "scap.n_evts_prev" (Value.u64 acc.last_n_evts)
        let f3 :=
          if delta ≠ 0 ∧ 0 < elapsedSec then
            setField f2 "scap.evts_rate_sec"
              (Value.d (round1 ((delta : ℚ) / elapsedSec)))
          else setField f2 "scap.evts_rate_sec" (Value.d 0)
        { acc with
          n_evts := nEvts, n_evts_delta := delta, last_n_evts := nEvts,
          fields := f3 }
      else if st.name = "n_drops" then
        let nDrops := st.vu64
        let delta := u64sub nDrops acc.last_n_drops
        let f1 := setField acc.fields metricName (Value.u64 nDrops)
        let f2 := setField f1 "scap.n_drops_prev" (Value.u64 acc.last_n_drops)
        let f3 :=
          if delta ≠ 0 ∧ 0 < elapsedSec then
            setField f2 "scap.evts_drop_rate_sec"
              (Value.d (round1 ((delta : ℚ) / elapsedSec)))
          else setField f2 "scap.evts_drop_rate_sec" (Value.d 0)
        { acc with
          n_drops := nDrops, n_drops_delta := delta, last_n_drops := nDrops,
          fields := f3 }
      else acc
    if st.vu64 = 0 ∧ cfg.includeEmptyValues = false then acc1
    else { acc1 with fields := setField acc1.fields metricName (Value.u64 st.vu64) }
  | _ => acc

/-- The kernel-side counters loop (lines 468-526): iterates the entries,
breaking out at the first entry whose name is empty. -/
def processScapStats (cfg : Config) (elapsedSec : ℚ) : ScapAcc → List Stat → ScapAcc
  | acc, [] => acc
  | acc, st :: rest =>
    if st.name = "" then acc
    else processScapStats cfg elapsedSec (processScapStat cfg elapsedSec acc st) rest

/-- The whole guarded kernel-side section (lines 460-537): when the snapshot
pointer is non-null, `nstats > 0` and `rc == 0`, run the loop and then set
the derived `scap.n_drops_perc` once, after the loop, from the accumulated
deltas, with the zero-denominator guard `n_evts_delta > 0`. -/
def scapSection (cfg : Config) (elapsedSec : ℚ) (lastNEvts lastNDrops : Nat)
    (snapshotPresent : Bool) (rc : Int) (stats : List Stat) (fs : Fields) :
    ScapAcc :=
  let acc0 : ScapAcc :=
    { n_evts := 0, n_drops := 0, n_evts_delta := 0, n_drops_delta := 0,
      last_n_evts := lastNEvts, last_n_drops := lastNDrops, fields := fs }
  if snapshotPresent = true ∧ 0 < stats.length ∧ rc = 0 then
    let acc := processScapStats cfg elapsedSec acc0 stats
    { acc with
      fields := setField acc.fields "scap.n_drops_perc"
        (Value.d (if 0 < acc.n_evts_delta then
            (100 * (acc.n_drops_delta : ℚ)) / (acc.n_evts_delta : ℚ)
          else 0)) }
  else acc0

/-- Identity/context inputs of `get_metrics_output_fields_wrapper`: agent and
machine info from the inspector, the Falco version, the outputs-queue drop
counter, and the engine predicate `inspector->check_current_engine`. -/
structure Env where
  falcoVersion : String
  startTsEpoch : Nat
  unameR : String
  bootTsEpoch : Nat
  hostname : String
  numCpus : Nat
  outputsQueueNumDrops : Nat
  checkCurrentEngine : String → Bool

/-- `all_driver_engines` (lines 313-315); the engine-name string constants
come from the capture library. -/
def allDriverEngines : List String :=
  ["bpf", "kmod", "modern_ebpf", "source_plugin", "nodriver", "gvisor"]

/-- `get_metrics_output_fields_wrapper` (lines 308-349) without its final
mutation of `m_last_num_evts` (threaded by `collect`): always-set identity
fields, the first engine name whose check passes, and the userspace event
rate, computed only when a previous count exists (`m_last_num_evts != 0`)
and the time delta is positive. -/
def wrapperFields (env : Env) (fs : Fields) (now : Nat) (src : String)
    (numEvts lastNumEvts : Nat) (elapsedSec : ℚ) : Fields :=
  let f1 := setField fs "evt.time" (Value.u64 now)
  let f2 := setField f1 "falco.version" (Value.s env.falcoVersion)
  let f3 := setField f2 "falco.start_ts" (Value.u64 env.startTsEpoch)
  let f4 := setField f3 "falco.duration_sec"
    (Value.u64 (u64sub now env.startTsEpoch / oneSecondInNs))
  let f5 := setField f4 "falco.kernel_release" (Value.s env.unameR)
  let f6 := setField f5 "falco.host_boot_ts" (Value.u64 env.bootTsEpoch)
  let f7 := setField f6 "falco.hostname" (Value.s env.hostname)
  let f8 := setField f7 "falco.host_num_cpus" (Value.u32 env.numCpus)
  let f9 := setField f8 "falco.outputs_queue_num_drops"
    (Value.u64 env.outputsQueueNumDrops)
  let f10 := setField f9 "evt.source" (Value.s src)
  let f11 :=
    match allDriverEngines.find? (fun e => env.checkCurrentEngine e) with
    | some e => setField f10 "scap.engine_name" (Value.s e)
    | none => f10
  let f12 :=
    if lastNumEvts ≠ 0 ∧ 0 < elapsedSec then
      setField f11 "falco.evts_rate_sec"
        (Value.d (round1 ((u64sub numEvts lastNumEvts : ℚ) / elapsedSec)))
    else f11
  let f13 := setField f12 "falco.num_evts" (Value.u64 numEvts)
  setField f13 "falco.num_evts_prev" (Value.u64 lastNumEvts)

/-- `falco_common::syscall_source` (from the common header; only its equality
with the snapshot's source label matters). -/
def syscall_source : String := "syscall"

/-- The per-collector previous-observation state (`m_last_tick`, `m_last_now`,
`m_last_num_evts`, `m_last_n_evts`, `m_last_n_drops`). -/
structure CollectorState where
  last_tick : Nat
  last_now : Nat
  last_num_evts : Nat
  last_n_evts : Nat
  last_n_drops : Nat
deriving DecidableEq

/-- A message for the writer queue (`stats_writer::msg`). -/
structure Msg where
  stop : Bool
  ts : Nat
  source : String
  output_fields : Fields

/-- The external inputs of one `collect` call: whether the writer has an
output configured, the ticker value read at the call, the wall-clock time,
the configuration, the two stats snapshots the inspector returns (with
their `rc` results and presence), and the raw userspace event count. -/
structure CollectInput where
  hasOutput : Bool
  tick : Nat
  now : Nat
  env : Env
  cfg : Config
  engineSnapshotPresent : Bool
  engineRc : Int
  engineBaseStat : Nat
  engineStats : List Stat
  scapSnapshotPresent : Bool
  scapRc : Int
  scapStats : List Stat
  src : String
  numEvts : Nat

/-- `get_metrics_output_fields_additional` (lines 351-539): the engine
section, then — only for the syscall source (lines 444-447) — the kernel-side
section; returns the fields together with the updated previous-value
members. -/
def additionalFields (inp : CollectInput) (st : CollectorState)
    (elapsedSec : ℚ) (fs : Fields) : ScapAcc :=
  let f1 := engineSection inp.cfg inp.engineSnapshotPresent inp.engineRc
    inp.engineBaseStat inp.engineStats fs
  if inp.src ≠ syscall_source then
    { n_evts := 0, n_drops := 0, n_evts_delta := 0, n_drops_delta := 0,
      last_n_evts := st.last_n_evts, last_n_drops := st.last_n_drops,
      fields := f1 }
  else
    scapSection inp.cfg elapsedSec st.last_n_evts st.last_n_drops
      inp.scapSnapshotPresent inp.scapRc inp.scapStats f1

/-- `stats_writer::collector::collect` (lines 541-573): gated on the writer
having an output and on the ticker differing from `m_last_tick`; computes the
wall-clock delta (zero on the first call, when `m_last_now == 0`), builds the
snapshot fields, updates the previous-observation state and produces exactly
one message; otherwise leaves the state untouched and produces nothing. -/
def collect (inp : CollectInput) (st : CollectorState) :
    CollectorState × Option Msg :=
  if inp.hasOutput = false then (st, none)
  else if inp.tick = st.last_tick then (st, none)
  else
    let delta : Nat := if st.last_now ≠ 0 then u64sub inp.now st.last_now else 0
    let elapsedSec : ℚ := (delta : ℚ) / (oneSecondInNs : ℚ)
    let f1 := wrapperFields inp.env emptyFields inp.now inp.src inp.numEvts
      st.last_num_evts elapsedSec
    let res := additionalFields inp st elapsedSec f1
    ({ last_tick := inp.tick, last_now := inp.now, last_num_evts := inp.numEvts,
       last_n_evts := res.last_n_evts, last_n_drops := res.last_n_drops },
     some { stop := false, ts := inp.now, source := inp.src,
            output_fields := res.fields })

/-- The bounded message queue (`m_queue`, a concurrent bounded queue with the
capacity set at construction). -/
structure BoundedQueue where
  capacity : Nat
  items : List Msg

/-- Modelled from the spec: the bounded channel collaborator's nonblocking
send (the queue class itself is external to this file's source); it appends
the message when the queue is below capacity and fails (without blocking and
without enqueuing) when the queue is full. -/
def tryPush (q : BoundedQueue) (m : Msg) : Option BoundedQueue :=
  if q.items.length < q.capacity then some { q with items := q.items ++ [m] }
  else none

/-- The outcome of `stats_writer::push`: the message was enqueued, or the
process terminated with `exit(EXIT_FAILURE)` after the fatal message. -/
inductive PushResult where
  | ok : BoundedQueue → PushResult
  | fatalExit : PushResult

/-- `stats_writer::push` (lines 237-246): a failed `try_push` is an
unrecoverable condition — print the fatal error and exit. -/
def push (q : BoundedQueue) (m : Msg) : PushResult :=
  match tryPush q m with
  | some q1 => PushResult.ok q1
  | none => PushResult.fatalExit

/-- What the worker visibly does for one dequeued message. -/
inductive WorkerEvent where
  | dispatched : Msg → WorkerEvent
  | loggedError : String → WorkerEvent

/-- How one worker-loop iteration ends: the loop returned (stop message), or
it continued to the next `pop` after producing the given visible events. -/
inductive StepOutcome where
  | stopped : StepOutcome
  | continued : List WorkerEvent → StepOutcome

/-- The worker-thread state (lines 253-255): `first_tick` is read once when
the thread starts and never changes; `last_tick` and `m_total_samples` evolve
per message. -/
structure WorkerState where
  first_tick : Nat
  last_tick : Nat
  total_samples : Nat
deriving DecidableEq

/-- One iteration of `stats_writer::worker` (lines 257-300) for the dequeued
message `m`, with `tick` the ticker value read at line 269 and `dispatch` the
sink-dispatch body of the `try` block (an external call that may raise): a
stop message returns at once; a tick equal to the baseline `first_tick` is
consumed without emitting; otherwise the completed-interval counter
increments exactly when the tick differs from `last_tick`, `last_tick` is
updated, and any exception from dispatch is caught and logged, after which
the loop continues. -/
def workerStep (dispatch : Msg → Except String Unit) (st : WorkerState)
    (m : Msg) (tick : Nat) : WorkerState × StepOutcome :=
  if m.stop = true then (st, StepOutcome.stopped)
  else if st.first_tick ≠ tick then
    let st1 : WorkerState :=
      { st with
        total_samples :=
          if st.last_tick ≠ tick then st.total_samples + 1 else st.total_samples,
        last_tick := tick }
    match dispatch m with
    | Except.ok _ => (st1, StepOutcome.continued [WorkerEvent.dispatched m])
    | Except.error e => (st1, StepOutcome.continued [WorkerEvent.loggedError e])
  else (st, StepOutcome.continued [])

/-! Helper lemmas about field lookup. -/

theorem setField_self (fs : Fields) (k : String) (v : Value) :
    setField fs k v k = some v := by
  simp [setField]

theorem setField_ne (fs : Fields) (k q : String) (v : Value) (h : q ≠ k) :
    setField fs k v q = fs q := by
  simp [setField, h]

/-- Claim C7: push() on the bounded channel never blocks the producer and
never silently drops a message: for every message, either try_push succeeds
and the message is enqueued, or the channel is at capacity and the process
terminates with a fatal error exit. -/
theorem push_never_blocks_never_drops (q : BoundedQueue) (m : Msg) :
    (q.items.length < q.capacity ∧
      push q m = PushResult.ok { q with items := q.items ++ [m] }) ∨
    (¬ q.items.length < q.capacity ∧ push q m = PushResult.fatalExit) := by
  by_cases h : q.items.length < q.capacity
  · exact Or.inl ⟨h, by simp [push, tryPush, h]⟩
  · exact Or.inr ⟨h, by simp [push, tryPush, h]⟩

theorem engineStats_eq_takeWhile (cfg : Config) (l : List Stat) (fs : Fields) :
    processEngineStats cfg fs l =
      processEngineStats cfg fs (l.takeWhile (fun s => s.name != "")) := by
  induction l generalizing fs with
  | nil => rfl
  | cons s rest ih =>
    by_cases h : s.name = ""
    · simp [processEngineStats, h, List.takeWhile_cons]
    · simp [processEngineStats, h, List.takeWhile_cons, ih]

theorem scapStats_eq_takeWhile (cfg : Config) (elapsedSec : ℚ) (l : List Stat)
    (acc : ScapAcc) :
    processScapStats cfg elapsedSec acc l =
      processScapStats cfg elapsedSec acc (l.takeWhile (fun s => s.name != "")) := by
  induction l generalizing acc with
  | nil => rfl
  | cons s rest ih =>
    by_cases h : s.name = ""
    · simp [processScapStats, h, List.takeWhile_cons]
    · simp [processScapStats, h, List.takeWhile_cons, ih]

/-- Claim C10: in both counter loops, iteration stops at the first entry
whose name is the empty string; that entry and every entry after it
contribute nothing to the snapshot, for every configuration and every list
of values. -/
theorem stats_loops_stop_at_first_empty_name (cfg : Config) (fs : Fields)
    (elapsedSec : ℚ) (acc : ScapAcc) (l rest : List Stat) (t : StatType)
    (a b : Nat) (x : ℚ) :
    processEngineStats cfg fs l =
      processEngineStats cfg fs (l.takeWhile (fun s => s.name != "")) ∧
    processScapStats cfg elapsedSec acc l =
      processScapStats cfg elapsedSec acc (l.takeWhile (fun s => s.name != "")) ∧
    processEngineStats cfg fs (⟨"", t, a, b, x⟩ :: rest) = fs ∧
    processScapStats cfg elapsedSec acc (⟨"", t, a, b, x⟩ :: rest) = acc := by
  refine ⟨engineStats_eq_takeWhile cfg l fs, scapStats_eq_takeWhile cfg elapsedSec l acc,
    ?_, ?_⟩
  · simp [processEngineStats]
  · simp [processScapStats]

/-- Claim C2: the worker's completed-interval counter never increments when
the observed tick equals the baseline first tick (and the whole step is then
a no-op that emits nothing); past the baseline it increments by exactly 1
when the observed tick differs from the last tick processed and not at all
when it is the same tick again, however many messages share that tick
(after the step, the last processed tick equals the observed tick). -/
theorem worker_total_samples_per_tick (dispatch : Msg → Except String Unit)
    (st : WorkerState) (m : Msg) (tick : Nat) (hstop : m.stop = false) :
    ((workerStep dispatch st m tick).1.first_tick = st.first_tick) ∧
    (tick = st.first_tick →
      workerStep dispatch st m tick = (st, StepOutcome.continued [])) ∧
    (tick ≠ st.first_tick → tick ≠ st.last_tick →
      (workerStep dispatch st m tick).1.total_samples = st.total_samples + 1) ∧
    (tick ≠ st.first_tick → tick = st.last_tick →
      (workerStep dispatch st m tick).1.total_samples = st.total_samples) ∧
    (tick ≠ st.first_tick → (workerStep dispatch st m tick).1.last_tick = tick) := by
  refine ⟨?_, ?_, ?_, ?_, ?_⟩
  · by_cases h : st.first_tick ≠ tick
    · cases hd : dispatch m <;> simp [workerStep, hstop, h, hd]
    · simp [workerStep, hstop, h]
  · intro h
    simp [workerStep, hstop, h.symm]
  · intro h1 h2
    cases hd : dispatch m <;>
      simp [workerStep, hstop, Ne.symm h1, Ne.symm h2, hd]
  · intro h1 h2
    subst h2
    cases hd : dispatch m <;>
      simp [workerStep, hstop, Ne.symm h1, hd]
  · intro h1
    cases hd : dispatch m <;> simp [workerStep, hstop, Ne.symm h1, hd]

/-- Claim C8: every error raised while the worker dispatches a snapshot to a
sink is caught and logged and the worker continues to the next message
instead of exiting; a stop message makes the worker return immediately,
leaving the state untouched and dispatching nothing. -/
theorem worker_dispatch_errors_caught (dispatch : Msg → Except String Unit)
    (st : WorkerState) (m : Msg) (tick : Nat) :
    (m.stop = true → workerStep dispatch st m tick = (st, StepOutcome.stopped)) ∧
    (m.stop = false → ∀ e, dispatch m = Except.error e →
      (workerStep dispatch st m tick).2 =
        (if st.first_tick ≠ tick then
          StepOutcome.continued [WorkerEvent.loggedError e]
        else StepOutcome.continued [])) ∧
    (m.stop = false → (workerStep dispatch st m tick).2 ≠ StepOutcome.stopped) := by
  refine ⟨?_, ?_, ?_⟩
  · intro h
    simp [workerStep, h]
  · intro h e hd
    by_cases hf : st.first_tick ≠ tick
    · simp [workerStep, h, hf, hd]
    · simp [workerStep, h, hf]
  · intro h
    by_cases hf : st.first_tick ≠ tick
    · cases hd : dispatch m <;> simp [workerStep, h, hf, hd]
    · simp [workerStep, h, hf]

/-! Concrete inputs used by the witness theorems. -/

/-- A concrete environment. -/
def envW : Env := ⟨"0.0.0", 0, "6.0", 0, "host", 1, 0, fun _ => false⟩

/-- A concrete configuration (include empty values, no memory conversion). -/
def cfgW : Config := ⟨true, false⟩

/-- A concrete collector state with last recorded tick 0. -/
def cstW : CollectorState := ⟨0, 0, 0, 0, 0⟩

/-- A concrete collect input whose ticker value 1 differs from `cstW`'s last
recorded tick. -/
def cinpW : CollectInput :=
  ⟨true, 1, 7, envW, cfgW, false, 0, 0, [], false, 0, [], "syscall", 3⟩

/-- A concrete non-stop message. -/
def msgW : Msg := ⟨false, 1, "syscall", emptyFields⟩

/-- A concrete stop message. -/
def stopMsgW : Msg := ⟨true, 0, "", emptyFields⟩

/-- A concrete worker state past its baseline tick 0, last processed tick 2. -/
def wstW : WorkerState := ⟨0, 2, 5⟩

/-- A dispatch body that always raises. -/
def dispatchFailW : Msg → Except String Unit := fun _ => Except.error "boom"

/-- A dispatch body that always succeeds. -/
def dispatchOkW : Msg → Except String Unit := fun _ => Except.ok ()

theorem worker_total_samples_per_tick_witness :
    ((workerStep dispatchOkW wstW msgW 3).1.first_tick = wstW.first_tick) ∧
    (3 = wstW.first_tick →
      workerStep dispatchOkW wstW msgW 3 = (wstW, StepOutcome.continued [])) ∧
    (3 ≠ wstW.first_tick → 3 ≠ wstW.last_tick →
      (workerStep dispatchOkW wstW msgW 3).1.total_samples = wstW.total_samples + 1) ∧
    (3 ≠ wstW.first_tick → 3 = wstW.last_tick →
      (workerStep dispatchOkW wstW msgW 3).1.total_samples = wstW.total_samples) ∧
    (3 ≠ wstW.first_tick → (workerStep dispatchOkW wstW msgW 3).1.last_tick = 3) :=
  worker_total_samples_per_tick dispatchOkW wstW msgW 3 rfl

theorem worker_dispatch_errors_caught_witness :
    workerStep dispatchFailW wstW stopMsgW 3 = (wstW, StepOutcome.stopped) ∧
    (workerStep dispatchFailW wstW msgW 3).2 =
      StepOutcome.continued [WorkerEvent.loggedError "boom"] ∧
    (workerStep dispatchFailW wstW msgW 3).2 ≠ StepOutcome.stopped := by
  have h := worker_dispatch_errors_caught dispatchFailW wstW msgW 3
  have hs := worker_dispatch_errors_caught dispatchFailW wstW stopMsgW 3
  refine ⟨hs.1 rfl, ?_, h.2.2 rfl⟩
  have h2 := h.2.1 rfl "boom" rfl
  simpa using h2

/-- Claim C1: collect() is gated once per tick value: when the ticker value
read equals the collector's last recorded tick, the call returns immediately
with the collector state unmutated and nothing enqueued; otherwise (with an
output configured) exactly one non-stop snapshot message is produced and the
last recorded tick is updated to the ticker value read. -/
theorem collect_gated_once_per_tick (inp : CollectInput) (st : CollectorState)
    (hout : inp.hasOutput = true) :
    (inp.tick = st.last_tick → collect inp st = (st, none)) ∧
    (inp.tick ≠ st.last_tick →
      (collect inp st).1.last_tick = inp.tick ∧
      ((collect inp st).2).isSome = true ∧
      ∀ m, (collect inp st).2 = some m → m.stop = false) := by
  have hne : ¬ inp.hasOutput = false := by simp [hout]
  constructor
  · intro h
    simp [collect, hne, h]
  · intro h
    refine ⟨?_, ?_, ?_⟩
    · simp [collect, hne, h]
    · simp [collect, hne, h]
    · intro m hm
      simp [collect, hne, h] at hm
      rw [← hm]

theorem collect_gated_once_per_tick_witness :
    (collect cinpW cstW).1.last_tick = 1 ∧
    ((collect cinpW cstW).2).isSome = true :=
  have h := (collect_gated_once_per_tick cinpW cstW rfl).2 (by decide)
  ⟨h.1, h.2.1⟩

/-- Claim C4: the derived drop percentage scap.n_drops_perc is set once,
after the kernel-side loop, from the deltas accumulated by that loop: it is
100 * drop_delta / event_delta when the event delta is positive and exactly 0
otherwise (so no division by zero ever happens), and it is always present
when the kernel-side list is processed. -/
theorem n_drops_perc_formula (cfg : Config) (elapsedSec : ℚ)
    (lastNEvts lastNDrops : Nat) (rc : Int) (stats : List Stat) (fs : Fields)
    (hlen : 0 < stats.length) (hrc : rc = 0) :
    (scapSection cfg elapsedSec lastNEvts lastNDrops true rc stats fs).fields
        "scap.n_drops_perc" =
      some (Value.d
        (if 0 < (processScapStats cfg elapsedSec
              ⟨0, 0, 0, 0, lastNEvts, lastNDrops, fs⟩ stats).n_evts_delta then
          (100 * ((processScapStats cfg elapsedSec
              ⟨0, 0, 0, 0, lastNEvts, lastNDrops, fs⟩ stats).n_drops_delta : ℚ)) /
            ((processScapStats cfg elapsedSec
              ⟨0, 0, 0, 0, lastNEvts, lastNDrops, fs⟩ stats).n_evts_delta : ℚ)
        else 0)) := by
  simp [scapSection, hlen, hrc, setField_self]

/-- The kernel-side stats list used by the C4 witness. -/
def statsW : List Stat :=
  [⟨"n_evts", StatType.u64T, 10, 0, 0⟩, ⟨"n_drops", StatType.u64T, 2, 0, 0⟩]

theorem n_drops_perc_formula_witness :
    (scapSection cfgW 1 0 0 true 0 statsW emptyFields).fields
        "scap.n_drops_perc" = some (Value.d 20) := by
  have h := n_drops_perc_formula cfgW 1 0 0 0 statsW emptyFields (by decide) rfl
  rw [h]
  simp [processScapStats, processScapStat, statsW, cfgW, u64sub, u64Mod]
  norm_num

/-- Claim C9: counter deltas use unsigned subtraction with no clamping: when
the current counter is smaller than the previous one, the delta is the value
wrapped modulo 2 ^ 64 (which is nonzero), and the userspace and kernel-side
rate computations consume that wrapped delta as-is. -/
theorem wrapped_delta_no_clamp (env : Env) (fs : Fields) (now : Nat)
    (src : String) (cur prev : Nat) (elapsedSec : ℚ) (cfg : Config)
    (acc : ScapAcc) (w : Nat) (x : ℚ)
    (hlt : cur < prev) (hprev : prev < u64Mod) (hel : 0 < elapsedSec)
    (hacc : acc.last_n_evts = prev) :
    u64sub cur prev = cur + u64Mod - prev ∧
    cur + u64Mod - prev ≠ 0 ∧
    wrapperFields env fs now src cur prev elapsedSec "falco.evts_rate_sec" =
      some (Value.d (round1 (((cur + u64Mod - prev : Nat) : ℚ) / elapsedSec))) ∧
    (processScapStat cfg elapsedSec acc
        ⟨"n_evts", StatType.u64T, cur, w, x⟩).n_evts_delta =
      cur + u64Mod - prev ∧
    (processScapStat cfg elapsedSec acc
        ⟨"n_evts", StatType.u64T, cur, w, x⟩).fields "scap.evts_rate_sec" =
      some (Value.d (round1 (((cur + u64Mod - prev : Nat) : ℚ) / elapsedSec))) := by
  have hmod : u64Mod = 18446744073709551616 := by norm_num [u64Mod]
  have h1 : u64sub cur prev = cur + u64Mod - prev := by
    simp only [u64sub, hmod] at *
    omega
  have h2 : cur + u64Mod - prev ≠ 0 := by omega
  have hprev0 : prev ≠ 0 := by omega
  refine ⟨h1, h2, ?_, ?_, ?_⟩
  · cases hfind : allDriverEngines.find? (fun e => env.checkCurrentEngine e) with
    | none => simp [wrapperFields, hfind, hprev0, hel, setField, h1]
    | some e => simp [wrapperFields, hfind, hprev0, hel, setField, h1]
  · rw [← h1]
    by_cases hz : cur = 0 ∧ cfg.includeEmptyValues = false
    · simp [processScapStat, hacc, hz]
    · simp [processScapStat, hacc, hz]
  · rw [← h1]
    have hd2 : u64sub cur prev ≠ 0 := by rw [h1]; exact h2
    by_cases hz : cur = 0 ∧ cfg.includeEmptyValues = false
    · obtain ⟨hc0, hinc⟩ := hz
      subst hc0
      simp [processScapStat, hacc, hinc, hd2, hel, setField]
    · simp [processScapStat, hacc, hz, hd2, hel, setField]

/-- A concrete kernel-side loop accumulator whose previous event count is 10. -/
def accW : ScapAcc := ⟨0, 0, 0, 0, 10, 0, emptyFields⟩

theorem wrapped_delta_no_clamp_witness :
    u64sub 5 10 = 5 + u64Mod - 10 ∧
    5 + u64Mod - 10 ≠ 0 ∧
    wrapperFields envW emptyFields 0 "syscall" 5 10 1 "falco.evts_rate_sec" =
      some (Value.d (round1 (((5 + u64Mod - 10 : Nat) : ℚ) / 1))) ∧
    (processScapStat cfgW 1 accW
        ⟨"n_evts", StatType.u64T, 5, 0, 0⟩).n_evts_delta = 5 + u64Mod - 10 ∧
    (processScapStat cfgW 1 accW
        ⟨"n_evts", StatType.u64T, 5, 0, 0⟩).fields "scap.evts_rate_sec" =
      some (Value.d (round1 (((5 + u64Mod - 10 : Nat) : ℚ) / 1))) :=
  wrapped_delta_no_clamp envW emptyFields 0 "syscall" 5 10 1 cfgW accW 0 0
    (by norm_num) (by norm_num [u64Mod]) (by norm_num) rfl

/-- Claim C3 counterexample: on the very first sample (no previous wall-clock
time, so the time delta is 0) with the kernel event counter unchanged, the
kernel-side rate field is still present in the snapshot, with value 0.0 —
the claim says no rate field is computed (present) when elapsed <= 0. -/
theorem rate_fields_elapsed_zero_cex :
    (scapSection ⟨true, false⟩ 0 5 0 true 0
        [⟨"n_evts", StatType.u64T, 5, 0, 0⟩] emptyFields).fields
      "scap.evts_rate_sec" = some (Value.d 0) := by
  decide

/-- Claim C3 (amended): the userspace rate field falco.evts_rate_sec is
omitted iff no previous event count exists (previous count 0) or the elapsed
time is not positive, and equals round(delta / elapsed, 1 decimal) otherwise
(so a zero delta with positive elapsed gives 0.0, present); the kernel-side
rate fields scap.evts_rate_sec / scap.evts_drop_rate_sec are always present
once their counter entry is processed: round(delta / elapsed, 1 decimal)
when the delta is nonzero and elapsed is positive, and 0.0 otherwise. -/
theorem rate_fields_amended (env : Env) (fs : Fields) (now : Nat)
    (src : String) (numEvts lastNumEvts : Nat) (elapsedSec : ℚ) (cfg : Config)
    (acc : ScapAcc) (v w : Nat) (x : ℚ)
    (h0 : fs "falco.evts_rate_sec" = none) :
    wrapperFields env fs now src numEvts lastNumEvts elapsedSec
        "falco.evts_rate_sec" =
      (if lastNumEvts ≠ 0 ∧ 0 < elapsedSec then
        some (Value.d (round1 ((u64sub numEvts lastNumEvts : ℚ) / elapsedSec)))
      else none) ∧
    (processScapStat cfg elapsedSec acc
        ⟨"n_evts", StatType.u64T, v, w, x⟩).fields "scap.evts_rate_sec" =
      some (Value.d (if u64sub v acc.last_n_evts ≠ 0 ∧ 0 < elapsedSec then
          round1 ((u64sub v acc.last_n_evts : ℚ) / elapsedSec) else 0)) ∧
    (processScapStat cfg elapsedSec acc
        ⟨"n_drops", StatType.u64T, v, w, x⟩).fields "scap.evts_drop_rate_sec" =
      some (Value.d (if u64sub v acc.last_n_drops ≠ 0 ∧ 0 < elapsedSec then
          round1 ((u64sub v acc.last_n_drops : ℚ) / elapsedSec) else 0)) := by
  refine ⟨?_, ?_, ?_⟩
  · by_cases hc : lastNumEvts ≠ 0 ∧ 0 < elapsedSec <;>
    cases hfind : allDriverEngines.find? (fun e => env.checkCurrentEngine e) <;>
      simp [wrapperFields, hfind, hc, setField, h0]
  · by_cases hz : v = 0 ∧ cfg.includeEmptyValues = false <;>
      (simp [processScapStat, hz, setField]; try split_ifs <;> simp [setField])
  · by_cases hz : v = 0 ∧ cfg.includeEmptyValues = false <;>
      (simp [processScapStat, hz, setField]; try split_ifs <;> simp [setField])

theorem rate_fields_amended_witness :
    wrapperFields envW emptyFields 0 "syscall" 150 100 1 "falco.evts_rate_sec" =
      some (Value.d (round1 50)) ∧
    (processScapStat cfgW 1 accW
        ⟨"n_evts", StatType.u64T, 10, 0, 0⟩).fields "scap.evts_rate_sec" =
      some (Value.d 0) := by
  have h := rate_fields_amended envW emptyFields 0 "syscall" 150 100 1 cfgW
    accW 10 0 0 rfl
  refine ⟨?_, ?_⟩
  · rw [h.1]
    norm_num [u64sub, u64Mod]
  · rw [h.2.1]
    norm_num [u64sub, u64Mod, accW]

/-- Claim C5 counterexample: with memory conversion on, a floating-point
field whose name has the generic memory prefix passes through unconverted
(2048, not 2048 / 1024 = 2) — the conversion rules only apply to the integer
branches of the type switch, contrary to the claim's "for every
engine/runtime counter field". -/
theorem memory_conversion_cex :
    processEngineStat ⟨true, true⟩ emptyFields
        ⟨"memory_x", StatType.dT, 0, 0, 2048⟩ "falco.memory_x" =
      some (Value.d 2048) ∧
    (2048 : ℚ) / 1024 = 2 ∧
    Value.d 2048 ≠ Value.d 2 := by
  refine ⟨by decide, by norm_num, by decide⟩

/-- Claim C5 (amended): with the conversion option on, the rules are
per-type: a 64-bit field named exactly container_memory_used is divided by
1024 * 1024 (kept as an integer), a 64-bit field whose name starts with
memory_ is divided by 1024, any other 64-bit field passes through; a 32-bit
field is divided by 1024 only under the memory_ name rule; a floating-point
field is never converted. With the option off nothing is converted. -/
theorem memory_conversion_amended (fs : Fields) (name : String)
    (v64 v32 : Nat) (vd : ℚ) (cfgOn cfgOff : Config)
    (hOn1 : cfgOn.includeEmptyValues = true)
    (hOn2 : cfgOn.convertMemoryToMb = true)
    (hOff1 : cfgOff.includeEmptyValues = true)
    (hOff2 : cfgOff.convertMemoryToMb = false) :
    (processEngineStat cfgOn fs ⟨name, StatType.u64T, v64, v32, vd⟩
        ("falco." ++ name) =
      some (Value.u64 (if name = "container_memory_used" then
          v64 / (1024 * 1024)
        else if strStarts name "memory_" = true then v64 / 1024
        else v64))) ∧
    (processEngineStat cfgOn fs ⟨name, StatType.u32T, v64, v32, vd⟩
        ("falco." ++ name) =
      some (Value.u32 (if strStarts name "memory_" = true then v32 / 1024
        else v32))) ∧
    (processEngineStat cfgOn fs ⟨name, StatType.dT, v64, v32, vd⟩
        ("falco." ++ name) = some (Value.d vd)) ∧
    (processEngineStat cfgOff fs ⟨name, StatType.u64T, v64, v32, vd⟩
        ("falco." ++ name) = some (Value.u64 v64)) ∧
    (processEngineStat cfgOff fs ⟨name, StatType.u32T, v64, v32, vd⟩
        ("falco." ++ name) = some (Value.u32 v32)) ∧
    (processEngineStat cfgOff fs ⟨name, StatType.dT, v64, v32, vd⟩
        ("falco." ++ name) = some (Value.d vd)) := by
  refine ⟨?_, ?_, ?_, ?_, ?_, ?_⟩
  · by_cases hc : name = "container_memory_used"
    · simp [processEngineStat, hOn1, hOn2, hc, setField]
    · by_cases hm : strStarts name "memory_" = true <;>
        simp [processEngineStat, hOn1, hOn2, hc, hm, setField]
  · by_cases hm : strStarts name "memory_" = true <;>
      simp [processEngineStat, hOn1, hOn2, hm, setField]
  · simp [processEngineStat, hOn1, setField]
  · simp [processEngineStat, hOff1, hOff2, setField]
  · simp [processEngineStat, hOff1, hOff2, setField]
  · simp [processEngineStat, hOff1, setField]

/-- The conversion-enabled configuration used by the C5 witness. -/
def cfgConvW : Config := ⟨true, true⟩

theorem memory_conversion_amended_witness :
    (processEngineStat cfgConvW emptyFields
        ⟨"container_memory_used", StatType.u64T, 2097152, 0, 0⟩
        "falco.container_memory_used" = some (Value.u64 2)) ∧
    (processEngineStat cfgConvW emptyFields
        ⟨"memory_rss", StatType.u32T, 0, 4096, 0⟩ "falco.memory_rss" =
      some (Value.u32 4)) := by
  have h := memory_conversion_amended emptyFields "container_memory_used"
    2097152 0 0 cfgConvW cfgW rfl rfl rfl rfl
  have h2 := memory_conversion_amended emptyFields "memory_rss"
    0 4096 0 cfgConvW cfgW rfl rfl rfl rfl
  refine ⟨?_, ?_⟩
  · have := h.1
    simpa using this
  · have := h2.2.1
    simpa using this

/-- Claim C6 counterexample: a zero-valued kernel-side n_evts counter is
present in the snapshot even though the include-empty-values option is off
and the name is neither n_fds nor n_threads — the reserved kernel-side
event/drop counters are written before the zero-suppression check. -/
theorem zero_suppression_cex :
    (scapSection ⟨false, false⟩ 0 0 0 true 0
        [⟨"n_evts", StatType.u64T, 0, 0, 0⟩] emptyFields).fields
      "scap.n_evts" = some (Value.u64 0) := by
  decide


/-- Whether the entry's typed value (the union member selected by its type
tag) is zero — the quantity tested by the zero-suppression checks. -/
def statZero (st : Stat) : Prop :=
  match st.type with
  | StatType.u64T => st.vu64 = 0
  | StatType.u32T => st.vu32 = 0
  | StatType.dT => st.vd = 0

theorem engineStat_skip_eq (cfg : Config) (fs : Fields) (st : Stat)
    (hz : statZero st) (hinc : cfg.includeEmptyValues = false) :
    processEngineStat cfg fs st =
      if st.name = "n_fds" ∨ st.name = "n_threads" then
        setField fs ("falco." ++ st.name) (Value.u64 st.vu64)
      else fs := by
  obtain ⟨nm, ty, v64, v32, vd⟩ := st
  cases ty <;> simp_all [processEngineStat, statZero]

theorem engineStat_write_ex (cfg : Config) (fs : Fields) (st : Stat)
    (hz : ¬(statZero st ∧ cfg.includeEmptyValues = false)) :
    ∃ w, processEngineStat cfg fs st =
      setField (if st.name = "n_fds" ∨ st.name = "n_threads" then
          setField fs ("falco." ++ st.name) (Value.u64 st.vu64) else fs)
        ("falco." ++ st.name) w := by
  obtain ⟨nm, ty, v64, v32, vd⟩ := st
  cases ty
  case u64T =>
    have hz2 : ¬(v64 = 0 ∧ cfg.includeEmptyValues = false) := by
      simpa [statZero] using hz
    simp only [processEngineStat]
    rw [if_neg hz2]
    split_ifs <;> exact ⟨_, rfl⟩
  case u32T =>
    have hz2 : ¬(v32 = 0 ∧ cfg.includeEmptyValues = false) := by
      simpa [statZero] using hz
    simp only [processEngineStat]
    rw [if_neg hz2]
    split_ifs <;> exact ⟨_, rfl⟩
  case dT =>
    have hz2 : ¬(vd = 0 ∧ cfg.includeEmptyValues = false) := by
      simpa [statZero] using hz
    simp only [processEngineStat]
    rw [if_neg hz2]
    exact ⟨_, rfl⟩

/-- Claim C6 (amended): in the engine/runtime list a field is present iff it
is one of the two reserved structural fields (n_fds, n_threads — always
present), or the include-empty-values option is on, or its typed value is
nonzero; in the kernel-side list only 64-bit entries are ever reported, and
there a field is present iff it is one of the reserved counters (n_evts,
n_drops — always present), or the option is on, or its value is nonzero. -/
theorem zero_suppression_amended (cfg : Config) (fs : Fields) (st : Stat)
    (elapsedSec : ℚ) (acc : ScapAcc)
    (hE : fs ("falco." ++ st.name) = none)
    (hS : acc.fields ("scap." ++ st.name) = none) :
    ((processEngineStat cfg fs st ("falco." ++ st.name)).isSome = true ↔
      (st.name = "n_fds" ∨ st.name = "n_threads" ∨
        cfg.includeEmptyValues = true ∨ ¬ statZero st)) ∧
    (((processScapStat cfg elapsedSec acc st).fields
        ("scap." ++ st.name)).isSome = true ↔
      (st.type = StatType.u64T ∧
        (st.name = "n_evts" ∨ st.name = "n_drops" ∨
          cfg.includeEmptyValues = true ∨ st.vu64 ≠ 0))) := by
  constructor
  · by_cases hz : statZero st ∧ cfg.includeEmptyValues = false
    · rw [engineStat_skip_eq cfg fs st hz.1 hz.2]
      by_cases hres : st.name = "n_fds" ∨ st.name = "n_threads"
      · rw [if_pos hres]
        simp [setField]
        tauto
      · rw [if_neg hres, hE]
        push_neg at hres
        simp [hres.1, hres.2, hz.2, hz.1]
    · obtain ⟨w, hw⟩ := engineStat_write_ex cfg fs st hz
      rw [hw]
      simp [setField]
      by_cases h0 : statZero st
      · have hinc : cfg.includeEmptyValues = true := by
          cases hb : cfg.includeEmptyValues
          · exact absurd ⟨h0, hb⟩ hz
          · rfl
        tauto
      · tauto
  · obtain ⟨nm, ty, v64, v32, vd⟩ := st
    cases ty
    case u64T =>
      by_cases he : nm = "n_evts"
      · subst he
        simp only [processScapStat]
        split_ifs <;> simp [setField]
      · by_cases hd : nm = "n_drops"
        · subst hd
          simp only [processScapStat]
          split_ifs <;> simp [setField]
        · simp only [processScapStat]
          rw [if_neg he, if_neg hd]
          by_cases hz : v64 = 0 ∧ cfg.includeEmptyValues = false
          · rw [if_pos hz]
            simp only at hS
            simp [hS, hz.1, hz.2, he, hd]
          · rw [if_neg hz]
            simp [setField, he, hd]
            by_cases h0 : v64 = 0
            · cases hb : cfg.includeEmptyValues
              · exact absurd ⟨h0, hb⟩ hz
              · tauto
            · tauto
    case u32T => simp [processScapStat, hS]
    case dT => simp [processScapStat, hS]

/-- The suppress-everything configuration used by the C6 witness. -/
def cfgOffW : Config := ⟨false, false⟩

/-- A zero-valued, unreserved 64-bit entry used by the C6 witness. -/
def stFooW : Stat := ⟨"foo", StatType.u64T, 0, 0, 0⟩

/-- An empty kernel-side accumulator used by the C6 witness. -/
def accZW : ScapAcc := ⟨0, 0, 0, 0, 0, 0, emptyFields⟩

theorem zero_suppression_amended_witness :
    ((processEngineStat cfgOffW emptyFields stFooW
        ("falco." ++ stFooW.name)).isSome = true ↔
      (stFooW.name = "n_fds" ∨ stFooW.name = "n_threads" ∨
        cfgOffW.includeEmptyValues = true ∨ ¬ statZero stFooW)) ∧
    (((processScapStat cfgOffW 0 accZW stFooW).fields
        ("scap." ++ stFooW.name)).isSome = true ↔
      (stFooW.type = StatType.u64T ∧
        (stFooW.name = "n_evts" ∨ stFooW.name = "n_drops" ∨
          cfgOffW.includeEmptyValues = true ∨ stFooW.vu64 ≠ 0))) :=
  zero_suppression_amended cfgOffW emptyFields stFooW 0 accZW rfl rfl
